import Mathlib

/-!
Shallow embedding of the travel-buddy backend (src/app.py), a Flask app with
four stateless HTTP handlers: POST /chat, GET /weather, GET /hotels,
GET /geocode.  Each handler is embedded as a pure Lean function of the
request parameters plus stubbed upstream oracles (the OpenAI chat-completion
API, the OpenWeatherMap API, the Nominatim geocoding API and the OpenTripMap
places API).  An oracle is a function from the request URL (or message) to
the stubbed upstream answer; `Except String` models a raised exception
(network failure, etc.).  Each handler also returns the list of outbound
calls it issued, so that "issues no outbound calls" is statable.

Optional JSON fields are modelled as `Option`: `none` is an absent key, and
a Python `dict[key]` access on an absent key is an exception (mapped by the
surrounding `try/except` to a 500 result).  `dict.get(key, default)` is
`Option.getD`.  Python truthiness of an optional string (`if not city:`) is
`pyTruthy`: `None` and `""` are falsy.
-/

/-- Python truthiness of `request.args.get(...)` / an optional string:
`None` and the empty string are falsy. -/
def pyTruthy : Option String → Bool
  | none => false
  | some s => s ≠ ""

/-- Python f-string interpolation of an optional value: `None` prints as
`"None"`. -/
def pyStr : Option String → String
  | none => "None"
  | some s => s

/-- Python `str.lower()`, as the character-wise case map over the string's
characters (the greeting check only ever compares against ASCII words). -/
def pyLower (s : String) : String :=
  ⟨s.data.map Char.toLower⟩

/-- Python `str.strip()`: leading and trailing whitespace removed. -/
def pyStrip (s : String) : String :=
  ⟨((s.data.dropWhile Char.isWhitespace).reverse.dropWhile
      Char.isWhitespace).reverse⟩

/-- One element of a Nominatim search response.  The upstream contract
(an ordered list of candidates with display name and lat/lon) guarantees
`lat`/`lon`; `display_name` is accessed in the source only through
`.get("display_name", ...)`, so it is kept optional. -/
structure GeoResult where
  display_name : Option String
  lat : String
  lon : String
deriving DecidableEq, Repr

/-- The `"main"` object of an OpenWeatherMap response; `temp` may be absent
(`data["main"]["temp"]` then raises). -/
structure WeatherMain where
  temp : Option Int
deriving DecidableEq, Repr

/-- One element of the `"weather"` array of an OpenWeatherMap response. -/
structure WeatherCond where
  description : Option String
deriving DecidableEq, Repr

/-- An OpenWeatherMap JSON payload, with exactly the fields the source
touches: `data["main"]["temp"]`, `data["weather"][0]["description"]`,
`data.get("name", city)`. -/
structure WeatherData where
  main : Option WeatherMain
  weather : Option (List WeatherCond)
  name : Option String
deriving DecidableEq, Repr

/-- `"properties"` of an OpenTripMap feature; the source reads
`props.get("name", "Unnamed")`. -/
structure PlaceProps where
  name : Option String
deriving DecidableEq, Repr

/-- `"geometry"` of an OpenTripMap feature; `coordinates` is the GeoJSON
`[lon, lat]` pair. -/
structure PlaceGeom where
  coordinates : Int × Int
deriving DecidableEq, Repr

/-- One OpenTripMap feature. -/
structure Place where
  properties : PlaceProps
  geometry : PlaceGeom
deriving DecidableEq, Repr

/-- An OpenTripMap radius response; the source reads
`places_res.get("features", [])`. -/
structure PlacesResponse where
  features : Option (List Place)
deriving DecidableEq, Repr

/-- One entry of the /hotels response array, exactly the dict appended to
`hotels_list` in the source. -/
structure Hotel where
  name : String
  lat : Int
  lon : Int
  map_link : String
  booking_link : String
  google_maps_link : String
deriving DecidableEq, Repr

/-- Result of the /chat handler: a 200 JSON body `{"reply": ..., "city": ...}`
(`none` renders as JSON `null`) or a 500 error envelope. -/
inductive ChatResult where
  | ok (reply : String) (city : Option String)
  | serverError (msg : String)
deriving DecidableEq, Repr

/-- HTTP status of a /chat result. -/
def ChatResult.status : ChatResult → Nat
  | .ok _ _ => 200
  | .serverError _ => 500

/-- Result of the /weather handler. -/
inductive WeatherResult where
  | missingCity
  | notFound
  | ok (temperature : Int) (condition : String) (city : String)
  | serverError (msg : String)
deriving DecidableEq, Repr

/-- HTTP status of a /weather result. -/
def WeatherResult.status : WeatherResult → Nat
  | .missingCity => 400
  | .notFound => 404
  | .ok _ _ _ => 200
  | .serverError _ => 500

/-- The `"error"` field of a /weather JSON body, when present. -/
def WeatherResult.errorMsg : WeatherResult → Option String
  | .missingCity => some "City is required"
  | .notFound => some "Weather not found"
  | .ok _ _ _ => none
  | .serverError e => some e

/-- Result of the /hotels handler. -/
inductive HotelsResult where
  | missingCity
  | cityNotFound
  | ok (hotels : List Hotel)
  | serverError (msg : String)
deriving DecidableEq, Repr

/-- HTTP status of a /hotels result. -/
def HotelsResult.status : HotelsResult → Nat
  | .missingCity => 400
  | .cityNotFound => 404
  | .ok _ => 200
  | .serverError _ => 500

/-- Result of the /geocode handler. -/
inductive GeocodeResult where
  | missingPlace
  | ok (name lat lon : String)
  | notFound
  | serverError (msg : String)
deriving DecidableEq, Repr

/-- HTTP status of a /geocode result. -/
def GeocodeResult.status : GeocodeResult → Nat
  | .missingPlace => 400
  | .ok _ _ _ => 200
  | .notFound => 404
  | .serverError _ => 500

/-- Whether the /geocode JSON body has a `"name"` field. -/
def GeocodeResult.hasName : GeocodeResult → Bool
  | .ok _ _ _ => true
  | _ => false

/-- The `"error"` field of a /geocode JSON body, when present. -/
def GeocodeResult.errorMsg : GeocodeResult → Option String
  | .missingPlace => some "Place is required"
  | .ok _ _ _ => none
  | .notFound => some "No results found"
  | .serverError e => some e

/-- The canned greeting returned by /chat for hi/hello/hey. -/
def chatGreeting : String := "Hello! I can help you plan trips. Where would you like to go?"

/-- The greeting trigger list checked by /chat (`user_input.lower() in [...]`). -/
def chatGreetingWords : List String := ["hi", "hello", "hey"]

/-- The Nominatim search URL a handler builds for query `q` (an f-string in
the source, so an absent /chat message interpolates as `"None"`). -/
def nominatimUrl (q : String) : String :=
  "https://nominatim.openstreetmap.org/search?format=json&q=" ++ q

/-- Python `display_name.split(",")[0]`: the leading comma-separated token
of a string (everything before the first comma; the whole string when it
has no comma; empty only when the string is empty). -/
def leadingCommaToken (s : String) : String :=
  ⟨s.data.takeWhile (fun c => c ≠ ',')⟩

/-- The model-based city-extraction step of /chat: `city` stays `None` when
the call raises (the exception is swallowed), otherwise it becomes the
stripped completion content (possibly the empty string). -/
def extractedCity : Except String String → Option String
  | .error _ => none
  | .ok content => some (pyStrip content)

/-- POST /chat (src/app.py, `chat`).  `message` is `request.json.get("message")`.
Oracles: `llm` is the itinerary chat completion (returns
`completion.choices[0].message.content`), `extract` the city-extraction chat
completion, `nominatim` the geocoding fallback.  Returns the result plus the
list of outbound calls issued, in order. -/
def chat (message : Option String)
    (llm : Option String → Except String String)
    (extract : Option String → Except String String)
    (nominatim : String → Except String (List GeoResult)) :
    ChatResult × List String :=
  if pyTruthy message && pyLower (pyStr message) ∈ chatGreetingWords then
    (.ok chatGreeting none, [])
  else
    match llm message with
    | .error e => (.serverError e, ["openai:itinerary"])
    | .ok reply =>
      let city0 : Option String := extractedCity (extract message)
      if pyTruthy city0 then
        (.ok reply city0, ["openai:itinerary", "openai:extract"])
      else
        let geoUrl := nominatimUrl (pyStr message)
        let city1 : Option String :=
          match nominatim geoUrl with
          | .error _ => city0
          | .ok [] => city0
          | .ok (r :: _) =>
            let display_name := r.display_name.getD ""
            if display_name = "" then none
            else some (leadingCommaToken display_name)
        (.ok reply city1, ["openai:itinerary", "openai:extract", geoUrl])

/-- The OpenWeatherMap URL built by /weather. -/
def weatherUrl (city key : String) : String :=
  "http://api.openweathermap.org/data/2.5/weather?q=" ++ city ++
    "&appid=" ++ key ++ "&units=metric"

/-- GET /weather (src/app.py, `weather`).  `cityArg` is
`request.args.get("city")`; `fetch` stubs `requests.get(url)` as the pair
(status code, parsed JSON), or an exception.  Mirrors the source: 400 if the
city is falsy, 404 if the status is not 200 or `"main"` is absent, then
`data["main"]["temp"]`, `data["weather"][0]["description"]` (an absent key or
empty array raises, caught as a 500) and `data.get("name", city)`. -/
def weather (cityArg : Option String) (key : String)
    (fetch : String → Except String (Nat × WeatherData)) :
    WeatherResult × List String :=
  if !pyTruthy cityArg then
    (.missingCity, [])
  else
    let city := pyStr cityArg
    let url := weatherUrl city key
    match fetch url with
    | .error e => (.serverError e, [url])
    | .ok (status, data) =>
      if status ≠ 200 || data.main.isNone then
        (.notFound, [url])
      else
        let result : WeatherResult :=
          match data.main with
          | none => .notFound
          | some m =>
            match m.temp with
            | none => .serverError "KeyError: temp"
            | some t =>
              match data.weather with
              | none => .serverError "KeyError: weather"
              | some [] => .serverError "IndexError: list index out of range"
              | some (w :: _) =>
                match w.description with
                | none => .serverError "KeyError: description"
                | some desc => .ok t desc (data.name.getD city)
        (result, [url])

/-- The OpenTripMap radius URL built by /hotels (note the `limit=5`). -/
def placesUrl (lon lat key : String) : String :=
  "https://api.opentripmap.com/0.1/en/places/radius?radius=5000&lon=" ++ lon ++
    "&lat=" ++ lat ++ "&kinds=accomodations&limit=5&apikey=" ++ key

/-- The `for place in places_res.get("features", [])` loop body of /hotels:
`hotel_name = props.get("name", "Unnamed")`, skip when falsy (`continue`),
otherwise append the entry with the three synthesised links. -/
def hotelsLoop (city : String) : List Place → List Hotel
  | [] => []
  | place :: rest =>
    let props := place.properties
    let coords := place.geometry.coordinates
    let hotel_name := props.name.getD "Unnamed"
    if hotel_name = "" then
      hotelsLoop city rest
    else
      { name := hotel_name
        lat := coords.2
        lon := coords.1
        map_link := "https://www.openstreetmap.org/?mlat=" ++ toString coords.2 ++
          "&mlon=" ++ toString coords.1 ++ "#map=18/" ++ toString coords.2 ++
          "/" ++ toString coords.1
        booking_link := "https://www.booking.com/searchresults.html?ss=" ++
          hotel_name ++ "+" ++ city
        google_maps_link := "https://www.google.com/maps/search/" ++
          hotel_name ++ "+" ++ city } :: hotelsLoop city rest

/-- GET /hotels (src/app.py, `hotels`).  Step 1 geocodes the city through
Nominatim (404 "City not found" on an empty result list), step 2 queries
OpenTripMap with `limit=5` and maps the features through `hotelsLoop`.
Exceptions from either call become a 500. -/
def hotels (cityArg : Option String) (key : String)
    (nominatim : String → Except String (List GeoResult))
    (places : String → Except String PlacesResponse) :
    HotelsResult × List String :=
  if !pyTruthy cityArg then
    (.missingCity, [])
  else
    let city := pyStr cityArg
    let nomUrl := nominatimUrl city
    match nominatim nomUrl with
    | .error e => (.serverError e, [nomUrl])
    | .ok [] => (.cityNotFound, [nomUrl])
    | .ok (first :: _) =>
      let plUrl := placesUrl first.lon first.lat key
      match places plUrl with
      | .error e => (.serverError e, [nomUrl, plUrl])
      | .ok placesRes =>
        (.ok (hotelsLoop city (placesRes.features.getD [])), [nomUrl, plUrl])

/-- GET /geocode (src/app.py, `geocode`).  `placeArg` is
`request.args.get("place")`.  A non-empty result list yields
`res[0].get("display_name", place)` with `res[0]["lat"]`/`res[0]["lon"]`;
an empty list yields 404 "No results found". -/
def geocode (placeArg : Option String)
    (nominatim : String → Except String (List GeoResult)) :
    GeocodeResult × List String :=
  if !pyTruthy placeArg then
    (.missingPlace, [])
  else
    let place := pyStr placeArg
    let url := nominatimUrl place
    match nominatim url with
    | .error e => (.serverError e, [url])
    | .ok [] => (.notFound, [url])
    | .ok (first :: _) =>
      (.ok (first.display_name.getD place) first.lat first.lon, [url])

/-- Number of hotel entries of a /hotels result (0 for error envelopes). -/
def HotelsResult.hotelCount : HotelsResult → Nat
  | .ok hs => hs.length
  | _ => 0

/-- The `"error"` field of a /hotels JSON body, when present. -/
def HotelsResult.errorMsg : HotelsResult → Option String
  | .missingCity => some "City is required"
  | .cityNotFound => some "City not found"
  | .ok _ => none
  | .serverError e => some e

/-- The effective hotel name of an OpenTripMap place:
`props.get("name", "Unnamed")`. -/
def effectiveName (place : Place) : String :=
  place.properties.name.getD "Unnamed"

/-- Declarative form of the /hotels entry the loop appends for a kept place:
the effective name, the place's coordinates, an OpenStreetMap viewer link
from the coordinates, and booking / Google-Maps search links from the
effective name and the request's city. -/
def hotelEntry (city : String) (place : Place) : Hotel :=
  { name := effectiveName place
    lat := place.geometry.coordinates.2
    lon := place.geometry.coordinates.1
    map_link := "https://www.openstreetmap.org/?mlat=" ++
      toString place.geometry.coordinates.2 ++ "&mlon=" ++
      toString place.geometry.coordinates.1 ++ "#map=18/" ++
      toString place.geometry.coordinates.2 ++ "/" ++
      toString place.geometry.coordinates.1
    booking_link := "https://www.booking.com/searchresults.html?ss=" ++
      effectiveName place ++ "+" ++ city
    google_maps_link := "https://www.google.com/maps/search/" ++
      effectiveName place ++ "+" ++ city }

/-- The /hotels loop is the filter of the features by a non-empty effective
name, mapped through `hotelEntry`, in upstream order. -/
theorem hotelsLoop_eq_filter_map (city : String) (ps : List Place) :
    hotelsLoop city ps =
      (ps.filter fun p => effectiveName p ≠ "").map (hotelEntry city) := by
  induction ps with
  | nil => rfl
  | cons p rest ih =>
    rw [show hotelsLoop city (p :: rest) =
          (if effectiveName p = "" then hotelsLoop city rest
           else hotelEntry city p :: hotelsLoop city rest) from rfl,
        List.filter_cons]
    by_cases h : effectiveName p = ""
    · simp [h, ih]
    · simp [h, ih]

/-- The /hotels loop never produces more entries than it is given places. -/
theorem hotelsLoop_length_le (city : String) (ps : List Place) :
    (hotelsLoop city ps).length ≤ ps.length := by
  rw [hotelsLoop_eq_filter_map]
  calc ((ps.filter fun p => effectiveName p ≠ "").map (hotelEntry city)).length
      = (ps.filter fun p => effectiveName p ≠ "").length := List.length_map _ _
    _ ≤ ps.length := List.length_filter_le _ _


/-- A /hotels run that returned a 200 list went through both upstream steps:
Nominatim yielded a non-empty result list, the OpenTripMap call succeeded,
and the list is the loop over the response's features. -/
theorem hotels_ok_inv (cityArg : Option String) (key : String)
    (nominatim : String → Except String (List GeoResult))
    (places : String → Except String PlacesResponse) (hs : List Hotel)
    (h : (hotels cityArg key nominatim places).1 = .ok hs) :
    ∃ first rest resp,
      nominatim (nominatimUrl (pyStr cityArg)) = .ok (first :: rest) ∧
      places (placesUrl first.lon first.lat key) = .ok resp ∧
      hs = hotelsLoop (pyStr cityArg) (resp.features.getD []) := by
  unfold hotels at h
  by_cases hc : pyTruthy cityArg
  · rw [if_neg (by simp [hc])] at h
    rcases hn : nominatim (nominatimUrl (pyStr cityArg)) with e | l
    · simp only [hn] at h
      simp at h
    · cases l with
      | nil =>
        simp only [hn] at h
        simp at h
      | cons first rest =>
        simp only [hn] at h
        rcases hpl : places (placesUrl first.lon first.lat key) with e | resp
        · simp only [hpl] at h
          simp at h
        · simp only [hpl] at h
          refine ⟨first, rest, resp, rfl, hpl, ?_⟩
          cases h
          rfl
  · rw [if_pos (by simp [hc])] at h
    simp at h

/-- Claim C1, as stated, is false on the code: the /chat greeting check
lowercases but never trims.  The message `" hi "` is exactly `"hi"` after
trimming and lowercasing, yet the handler does not short-circuit: it issues
the itinerary call (here stubbed to fail) and returns a 500, not the
greeting. -/
theorem chat_greeting_not_trimmed :
    pyLower (pyStrip " hi ") ∈ chatGreetingWords ∧
    chat (some " hi ") (fun _ => .error "upstream error") (fun _ => .error "e")
        (fun _ => .error "e") = (.serverError "upstream error", ["openai:itinerary"]) ∧
    (ChatResult.serverError "upstream error").status = 500 :=
  ⟨by decide, by decide, rfl⟩

/-- Claim C1 (amended): for every /chat request whose message, after
lowercasing only (the handler does not trim), is exactly "hi", "hello" or
"hey", the handler returns the 200 response with the fixed greeting and a
null city, and issues no outbound calls. -/
theorem chat_greeting_lowercase_exact (s : String)
    (llm extract : Option String → Except String String)
    (nominatim : String → Except String (List GeoResult))
    (h : pyLower s ∈ chatGreetingWords) :
    chat (some s) llm extract nominatim = (.ok chatGreeting none, []) := by
  have hs : s ≠ "" := by
    intro he
    rw [he] at h
    exact absurd h (by decide)
  unfold chat
  simp [pyTruthy, pyStr, hs, h]

/-- Claim C1 witness: the message "Hello" triggers the greeting
short-circuit with no outbound calls. -/
theorem chat_greeting_lowercase_exact_witness :
    chat (some "Hello") (fun _ => .error "a") (fun _ => .error "b")
        (fun _ => .error "c") = (.ok chatGreeting none, []) :=
  chat_greeting_lowercase_exact "Hello" _ _ _ (by decide)

/-- Claim C2, as stated, is false on the code: the 404 check only tests the
HTTP status and the presence of "main".  A 200 upstream payload that has
"main" but lacks the "weather" field — a response "lacking the expected
fields" — raises a KeyError, which the blanket handler turns into a 500,
not the claimed 404. -/
theorem weather_missing_weather_field_500 :
    (weather (some "Paris") "KEY"
        (fun _ => .ok (200, ⟨some ⟨some 18⟩, none, some "Paris"⟩))).1 =
      .serverError "KeyError: weather" ∧
    ((weather (some "Paris") "KEY"
        (fun _ => .ok (200, ⟨some ⟨some 18⟩, none, some "Paris"⟩))).1).status = 500 ∧
    ((weather (some "Paris") "KEY"
        (fun _ => .ok (200, ⟨some ⟨some 18⟩, none, some "Paris"⟩))).1).status ≠ 404 :=
  ⟨rfl, rfl, by decide⟩

/-- Claim C2 (amended): for every /weather request with a city present, a
non-success upstream response or one lacking the "main" field yields
404 "Weather not found"; a 200 response carrying "main.temp" and a first
"weather" element with a "description" yields 200 with the temperature, the
description and the resolved city name (`data.get("name", city)`); while a
200 response with "main" present but "temp", "weather", its first element
or its "description" missing yields a 500, not a 404. -/
theorem weather_upstream_mapping (city key : String) (status : Nat)
    (data : WeatherData)
    (fetch : String → Except String (Nat × WeatherData))
    (hc : city ≠ "")
    (hf : fetch (weatherUrl city key) = .ok (status, data)) :
    (status ≠ 200 ∨ data.main = none →
      (weather (some city) key fetch).1 = .notFound ∧
      WeatherResult.notFound.status = 404 ∧
      WeatherResult.notFound.errorMsg = some "Weather not found") ∧
    (∀ t d ws, status = 200 → data.main = some ⟨some t⟩ →
      data.weather = some ({ description := some d } :: ws) →
      (weather (some city) key fetch).1 = .ok t d (data.name.getD city)) ∧
    (∀ m, status = 200 → data.main = some m →
      (m.temp = none ∨ data.weather = none ∨ data.weather = some [] ∨
        (∃ w ws, data.weather = some (w :: ws) ∧ w.description = none)) →
      ((weather (some city) key fetch).1).status = 500) := by
  have hred : (weather (some city) key fetch).1 =
      (if status ≠ 200 || data.main.isNone then WeatherResult.notFound
       else match data.main with
         | none => .notFound
         | some m =>
           match m.temp with
           | none => .serverError "KeyError: temp"
           | some t =>
             match data.weather with
             | none => .serverError "KeyError: weather"
             | some [] => .serverError "IndexError: list index out of range"
             | some (w :: _) =>
               match w.description with
               | none => .serverError "KeyError: description"
               | some desc => .ok t desc (data.name.getD city)) := by
    unfold weather
    rw [if_neg (by simp [pyTruthy, hc])]
    simp only [pyStr, hf]
    cases hb : (decide (status ≠ 200) || data.main.isNone) <;> simp [hb]
  refine ⟨?_, ?_, ?_⟩
  · intro hcase
    refine ⟨?_, rfl, rfl⟩
    rw [hred, if_pos]
    rcases hcase with hst | hm
    · simp [hst]
    · simp [hm]
  · intro t d ws hst hm hw
    rw [hred, if_neg (by simp [hst, hm]), hm, hw]
  · intro m hst hm hcase
    rw [hred, if_neg (by simp [hst, hm]), hm]
    rcases hmt : m.temp with _ | t
    · simp [hmt, WeatherResult.status]
    · rcases hcase with ht | hw | hw | ⟨w, ws, hw, hd⟩
      · exact absurd ht (by simp [hmt])
      · simp [hmt, hw, WeatherResult.status]
      · simp [hmt, hw, WeatherResult.status]
      · simp [hmt, hw, hd, WeatherResult.status]

/-- Claim C2 witness: the spec's scenario — a stub returning temp 18,
description "clear sky" and name "Paris" yields the 200 weather body. -/
theorem weather_upstream_mapping_witness :
    (weather (some "Paris") "KEY"
        (fun _ => .ok (200,
          ⟨some ⟨some 18⟩, some [⟨some "clear sky"⟩], some "Paris"⟩))).1 =
      .ok 18 "clear sky" "Paris" :=
  (weather_upstream_mapping "Paris" "KEY" 200
      ⟨some ⟨some 18⟩, some [⟨some "clear sky"⟩], some "Paris"⟩
      (fun _ => .ok (200, ⟨some ⟨some 18⟩, some [⟨some "clear sky"⟩], some "Paris"⟩))
      (by decide) rfl).2.1 18 "clear sky" [] rfl rfl rfl

/-- Claim C3, as stated, is false on the code: the cap of 5 lives only in
the `limit=5` parameter of the OpenTripMap request URL; the handler itself
never truncates.  An upstream response with 6 named features produces a 200
list of 6 entries. -/
theorem hotels_six_features_six_entries :
    ((hotels (some "Paris") "K" (fun _ => .ok [⟨some "Paris", "48", "2"⟩])
        (fun _ => .ok ⟨some (List.replicate 6 ⟨⟨some "H"⟩, ⟨(2, 48)⟩⟩)⟩)).1).hotelCount = 6 ∧
    ((hotels (some "Paris") "K" (fun _ => .ok [⟨some "Paris", "48", "2"⟩])
        (fun _ => .ok ⟨some (List.replicate 6 ⟨⟨some "H"⟩, ⟨(2, 48)⟩⟩)⟩)).1).status = 200 ∧
    ¬ ((hotels (some "Paris") "K" (fun _ => .ok [⟨some "Paris", "48", "2"⟩])
        (fun _ => .ok ⟨some (List.replicate 6 ⟨⟨some "H"⟩, ⟨(2, 48)⟩⟩)⟩)).1).hotelCount ≤ 5 :=
  ⟨by decide, by decide, by decide⟩

/-- Claim C3 (amended): the /hotels handler asks the upstream for at most 5
results (`limit=5` in `placesUrl`) but does not cap locally, so whenever the
upstream points-of-interest response contains at most 5 features — in
particular whenever it honors the requested limit — the returned 200 list
has at most 5 entries. -/
theorem hotels_at_most_five_of_upstream (cityArg : Option String) (key : String)
    (nominatim : String → Except String (List GeoResult))
    (places : String → Except String PlacesResponse)
    (resp : PlacesResponse)
    (hp : ∀ u, places u = .ok resp)
    (hlen : (resp.features.getD []).length ≤ 5) :
    ∀ hs, (hotels cityArg key nominatim places).1 = .ok hs → hs.length ≤ 5 := by
  intro hs h
  obtain ⟨first, rest, resp', hn, hpl, hhs⟩ :=
    hotels_ok_inv cityArg key nominatim places hs h
  rw [hp _] at hpl
  injection hpl with hr
  subst hr
  rw [hhs]
  exact le_trans (hotelsLoop_length_le _ _) hlen

/-- Claim C3 witness: a single-feature upstream response yields a list of at
most 5 entries. -/
theorem hotels_at_most_five_of_upstream_witness :
    (hotelsLoop "Paris" [⟨⟨some "H"⟩, ⟨(2, 48)⟩⟩]).length ≤ 5 :=
  hotels_at_most_five_of_upstream (some "Paris") "K"
    (fun _ => .ok [⟨some "Paris", "48", "2"⟩])
    (fun _ => .ok ⟨some [⟨⟨some "H"⟩, ⟨(2, 48)⟩⟩]⟩)
    ⟨some [⟨⟨some "H"⟩, ⟨(2, 48)⟩⟩]⟩ (fun _ => rfl) (by decide)
    (hotelsLoop "Paris" [⟨⟨some "H"⟩, ⟨(2, 48)⟩⟩]) rfl

/-- Claim C4, as stated, is false on the code: /chat never validates that
the message is present.  A request with no "message" key proceeds into the
itinerary call; with a succeeding stub it even returns 200, and in no case
does it return a 400 ValidationError. -/
theorem chat_missing_message_not_400 :
    (chat none (fun _ => .ok "plan") (fun _ => .error "e") (fun _ => .ok [])).1 =
      ChatResult.ok "plan" none ∧
    (ChatResult.ok "plan" none).status = 200 :=
  ⟨by decide, rfl⟩

/-- Claim C4 (amended): /weather, /hotels and /geocode validate their
required parameter before doing anything else and return a 400 error
("City is required" / "Place is required") with no outbound calls when it
is absent; /chat performs no presence validation on the message — no /chat
response ever has status 400. -/
theorem required_param_validation (wkey okey : String)
    (fetch : String → Except String (Nat × WeatherData))
    (llm extract : Option String → Except String String)
    (nomc nomh nomg : String → Except String (List GeoResult))
    (places : String → Except String PlacesResponse) :
    weather none wkey fetch = (.missingCity, []) ∧
    hotels none okey nomh places = (.missingCity, []) ∧
    geocode none nomg = (.missingPlace, []) ∧
    WeatherResult.missingCity.status = 400 ∧
    HotelsResult.missingCity.status = 400 ∧
    GeocodeResult.missingPlace.status = 400 ∧
    WeatherResult.missingCity.errorMsg = some "City is required" ∧
    HotelsResult.missingCity.errorMsg = some "City is required" ∧
    GeocodeResult.missingPlace.errorMsg = some "Place is required" ∧
    (chat none llm extract nomc).1.status ≠ 400 := by
  refine ⟨rfl, rfl, rfl, rfl, rfl, rfl, rfl, rfl, rfl, ?_⟩
  cases h : (chat none llm extract nomc).1 <;> simp [ChatResult.status]

/-- Claim C5, as stated, is false on the code: a place whose "properties"
object has no "name" key gets the default name "Unnamed"
(`props.get("name", "Unnamed")`), which is truthy, so the place produces an
entry named "Unnamed" instead of being skipped. -/
theorem hotels_absent_name_yields_unnamed_entry :
    ((hotels (some "Paris") "K" (fun _ => .ok [⟨some "Paris", "48", "2"⟩])
        (fun _ => .ok ⟨some [⟨⟨none⟩, ⟨(2, 48)⟩⟩]⟩)).1) =
      HotelsResult.ok [⟨"Unnamed", 48, 2,
        "https://www.openstreetmap.org/?mlat=48&mlon=2#map=18/48/2",
        "https://www.booking.com/searchresults.html?ss=Unnamed+Paris",
        "https://www.google.com/maps/search/Unnamed+Paris"⟩] ∧
    (⟨⟨none⟩, ⟨(2, 48)⟩⟩ : Place).properties.name = none :=
  ⟨by decide, rfl⟩

/-- Claim C5 (amended): for every upstream points-of-interest response, the
/hotels 200 list contains an entry exactly for each returned place whose
effective name — the "name" property, defaulting to "Unnamed" when the
property is absent — is non-empty, in upstream order; only a place whose
name property is present but empty produces no entry.  Each entry's
map_link is built from the place's coordinates, and its booking_link and
google_maps_link from the effective name and the request's city
(see `hotelEntry`). -/
theorem hotels_entry_synthesis (city key : String)
    (nominatim : String → Except String (List GeoResult))
    (places : String → Except String PlacesResponse)
    (resp : PlacesResponse)
    (hp : ∀ u, places u = .ok resp) :
    ∀ hs, (hotels (some city) key nominatim places).1 = .ok hs →
      hs = ((resp.features.getD []).filter
              fun p => effectiveName p ≠ "").map (hotelEntry city) := by
  intro hs h
  obtain ⟨first, rest, resp', hn, hpl, hhs⟩ :=
    hotels_ok_inv (some city) key nominatim places hs h
  rw [hp _] at hpl
  injection hpl with hr
  subst hr
  rw [hhs, hotelsLoop_eq_filter_map]
  rfl

/-- Claim C5 witness: a one-feature response produces exactly the filtered,
mapped entry list. -/
theorem hotels_entry_synthesis_witness :
    hotelsLoop "Paris" [⟨⟨some "H"⟩, ⟨(2, 48)⟩⟩] =
      (([⟨⟨some "H"⟩, ⟨(2, 48)⟩⟩] : List Place).filter
          fun p => effectiveName p ≠ "").map (hotelEntry "Paris") :=
  hotels_entry_synthesis "Paris" "K" (fun _ => .ok [⟨some "Paris", "48", "2"⟩])
    (fun _ => .ok ⟨some [⟨⟨some "H"⟩, ⟨(2, 48)⟩⟩]⟩)
    ⟨some [⟨⟨some "H"⟩, ⟨(2, 48)⟩⟩]⟩ (fun _ => rfl)
    (hotelsLoop "Paris" [⟨⟨some "H"⟩, ⟨(2, 48)⟩⟩]) rfl

/-- Claim C6, as stated, is false on the code in one corner: when the
extraction step returns an empty string and the fallback then fails, the
swallowed failure leaves `city` as the empty string — serialized as `""`,
not as JSON null — while the request still returns 200 with the reply. -/
theorem chat_empty_city_not_null :
    (chat (some "plan a trip") (fun _ => .ok "itin") (fun _ => .ok "")
        (fun _ => .error "network down")).1 = ChatResult.ok "itin" (some "") ∧
    (ChatResult.ok "itin" (some "")).status = 200 ∧
    some "" ≠ (none : Option String) :=
  ⟨by decide, rfl, by decide⟩

/-- Claim C6 (amended): for every /chat request that completes the
itinerary step, if the extraction step fails or yields an empty city
(`pyTruthy (extractedCity ...) = false`), the handler falls back to a
geocoding lookup whose query is the raw message (the third outbound call is
`nominatimUrl (pyStr message)`).  A failing or empty-result fallback is
swallowed: the request still returns 200 with the reply and `city` keeps
its prior value — null when the extraction raised, the empty string when
the extraction returned an empty string.  A non-empty fallback result sets
city to the leading comma-separated token of the first result's display
name (null when that display name is absent or empty). -/
theorem chat_city_fallback_swallows (message : Option String)
    (llm extract : Option String → Except String String)
    (nominatim : String → Except String (List GeoResult)) (reply : String)
    (hgr : pyLower (pyStr message) ∉ chatGreetingWords)
    (hllm : llm message = .ok reply)
    (hfall : pyTruthy (extractedCity (extract message)) = false) :
    (∀ e, nominatim (nominatimUrl (pyStr message)) = .error e →
      chat message llm extract nominatim =
        (.ok reply (extractedCity (extract message)),
         ["openai:itinerary", "openai:extract", nominatimUrl (pyStr message)])) ∧
    (nominatim (nominatimUrl (pyStr message)) = .ok [] →
      chat message llm extract nominatim =
        (.ok reply (extractedCity (extract message)),
         ["openai:itinerary", "openai:extract", nominatimUrl (pyStr message)])) ∧
    (∀ r rs, nominatim (nominatimUrl (pyStr message)) = .ok (r :: rs) →
      chat message llm extract nominatim =
        (.ok reply
          (if r.display_name.getD "" = "" then none
           else some (leadingCommaToken (r.display_name.getD ""))),
         ["openai:itinerary", "openai:extract", nominatimUrl (pyStr message)])) := by
  refine ⟨?_, ?_, ?_⟩
  · intro e hn
    simp [chat, hgr, hllm, hfall, hn]
  · intro hn
    simp [chat, hgr, hllm, hfall, hn]
  · intro r rs hn
    simp [chat, hgr, hllm, hfall, hn]

/-- Claim C6 witness: a failed extraction followed by a failed fallback is
swallowed and leaves city null while the reply is returned with 200. -/
theorem chat_city_fallback_swallows_witness :
    chat (some "plan a trip") (fun _ => .ok "itin") (fun _ => .error "boom")
        (fun _ => .error "network down") =
      (.ok "itin" none,
       ["openai:itinerary", "openai:extract", nominatimUrl "plan a trip"]) :=
  (chat_city_fallback_swallows (some "plan a trip") (fun _ => .ok "itin")
      (fun _ => .error "boom") (fun _ => .error "network down") "itin"
      (by decide) rfl rfl).1 "network down" rfl

/-- Claim C7: a /geocode request whose geocoding call yields zero results
returns 404 with an "error" field and no "name" field; a non-empty result
list yields 200 with the first result's display name and its lat and lon. -/
theorem geocode_first_result_or_404 (place : String)
    (nominatim : String → Except String (List GeoResult))
    (hp : place ≠ "") :
    (nominatim (nominatimUrl place) = .ok [] →
      (geocode (some place) nominatim).1 = .notFound ∧
      GeocodeResult.notFound.status = 404 ∧
      GeocodeResult.notFound.hasName = false ∧
      GeocodeResult.notFound.errorMsg = some "No results found") ∧
    (∀ r rs d, nominatim (nominatimUrl place) = .ok (r :: rs) →
      r.display_name = some d →
      (geocode (some place) nominatim).1 = .ok d r.lat r.lon ∧
      (GeocodeResult.ok d r.lat r.lon).status = 200) := by
  constructor
  · intro h
    refine ⟨?_, rfl, rfl, rfl⟩
    simp [geocode, pyTruthy, pyStr, hp, h]
  · intro r rs d h hd
    refine ⟨?_, rfl⟩
    simp [geocode, pyTruthy, pyStr, hp, h, hd]

/-- Claim C7 witness: an empty stubbed result list gives the 404, and a
one-result list gives the 200 body with that result's fields. -/
theorem geocode_first_result_or_404_witness :
    (geocode (some "Nowhereville") (fun _ => .ok [])).1 = .notFound ∧
    (geocode (some "Paris")
        (fun _ => .ok [⟨some "Paris, France", "48.85", "2.35"⟩])).1 =
      .ok "Paris, France" "48.85" "2.35" :=
  ⟨((geocode_first_result_or_404 "Nowhereville" _ (by decide)).1 rfl).1,
   ((geocode_first_result_or_404 "Paris" _ (by decide)).2 _ _ _ rfl rfl).1⟩

/-- Claim C8: the /weather and /geocode handlers are deterministic — they
are pure functions of the request input and the stubbed upstream, with no
other state in the embedding, so two runs with identical inputs produce
identical results (status, body and outbound calls). -/
theorem weather_geocode_deterministic (cityArg placeArg : Option String)
    (key : String) (fetch : String → Except String (Nat × WeatherData))
    (nominatim : String → Except String (List GeoResult)) :
    weather cityArg key fetch = weather cityArg key fetch ∧
    geocode placeArg nominatim = geocode placeArg nominatim :=
  ⟨rfl, rfl⟩

/-- Claim C9: a /weather request with no city returns the 400
"City is required" error and issues no outbound call (the empty call
list). -/
theorem weather_missing_city_400 (key : String)
    (fetch : String → Except String (Nat × WeatherData)) :
    weather none key fetch = (.missingCity, []) ∧
    WeatherResult.missingCity.status = 400 ∧
    WeatherResult.missingCity.errorMsg = some "City is required" :=
  ⟨rfl, rfl, rfl⟩

/-- Claim C10: on a successful /weather response whose upstream payload has
no "name" field, the returned city falls back to the request's city
(`data.get("name", city)` with `name` absent). -/
theorem weather_city_name_fallback (city key : String) (t : Int) (d : String)
    (ws : List WeatherCond)
    (fetch : String → Except String (Nat × WeatherData))
    (hc : city ≠ "")
    (hf : fetch (weatherUrl city key) =
      .ok (200, ⟨some ⟨some t⟩, some ({ description := some d } :: ws), none⟩)) :
    (weather (some city) key fetch).1 = .ok t d city := by
  unfold weather
  simp [pyTruthy, pyStr, hc, hf]

/-- Claim C10 witness: a 200 upstream payload with temp 18, description
"clear sky" and no name resolves the city to the requested "Paris". -/
theorem weather_city_name_fallback_witness :
    (weather (some "Paris") "KEY"
        (fun _ => .ok (200, ⟨some ⟨some 18⟩, some [⟨some "clear sky"⟩], none⟩))).1 =
      .ok 18 "clear sky" "Paris" :=
  weather_city_name_fallback "Paris" "KEY" 18 "clear sky" [] _ (by decide) rfl
